import Mathlib

/-!
Shallow embedding of the meeting-preparation agent (`app.py`).

Every external HTTP interaction is modelled by an oracle value supplied as
input: a network call's outcome is `Except PyErr r` where `r` carries the
HTTP status and the parts of the JSON body the code actually reads.  Python
exceptions (KeyError, IndexError, TypeError, JSON decode errors, network
errors) are modelled by the `Except` error channel; `try/except` blocks in
the source become explicit handlers.  The orchestrator additionally records
the ordered trace of outbound vendor calls it issues.
-/

/-- Python exceptions that the code can raise or catch. -/
inductive PyErr where
  | keyError
  | indexError
  | typeError
  | valueError
  | netError (msg : String)
deriving DecidableEq

/-- An HTTP response: status code plus the decoded body shape. -/
structure Resp (β : Type) where
  status : Nat
  body : β
deriving DecidableEq

/-- One entry of `provider_data` built by `get_tokens_for_user`:
`{'accessToken': item['accessToken'], 'userId': item.get('providerUserId')}`. -/
structure TokenRecord where
  accessToken : String
  userId : Option String
deriving DecidableEq

/-- One item of the token-vault response's `providers` array; `none` models a
missing JSON key (`item['provider']` and `item['accessToken']` are accessed
directly and raise KeyError when absent, `providerUserId` via `.get`). -/
structure TokenItem where
  provider : Option String
  accessToken : Option String
  providerUserId : Option String
deriving DecidableEq

/-- Body of the token-vault response: `malformed` models a body on which
`response.json()` raises; `dict none` models a JSON object without the
`providers` key. -/
inductive TokensBody where
  | malformed
  | dict (providers : Option (List TokenItem))
deriving DecidableEq

/-- The `for item in data['providers']` loop of `get_tokens_for_user`:
builds the provider dict, raising KeyError on a missing `provider` or
`accessToken` key.  Python dict assignment overwrites, which the
prepend-plus-first-match representation reproduces. -/
def buildProviderData : List TokenItem → List (String × TokenRecord) →
    Except PyErr (List (String × TokenRecord))
  | [], acc => .ok acc
  | item :: rest, acc =>
    match item.provider with
    | none => .error .keyError
    | some name =>
      match item.accessToken with
      | none => .error .keyError
      | some tok => buildProviderData rest ((name, ⟨tok, item.providerUserId⟩) :: acc)

/-- Python `tokens.get(k)`: first-match lookup in the provider dict. -/
def dictGet (m : List (String × TokenRecord)) (k : String) : Option TokenRecord :=
  (m.find? (fun p => p.1 == k)).map (fun p => p.2)

/-- Embedding of `get_tokens_for_user`: on 200 parses the body and builds the provider
dict (any malformed body raises, there is no try/except); on any other
status logs and returns `None`; a network exception propagates. -/
def get_tokens_for_user (net : Except PyErr (Resp TokensBody)) :
    Except PyErr (Option (List (String × TokenRecord))) :=
  match net with
  | .error e => .error e
  | .ok resp =>
    if resp.status = 200 then
      match resp.body with
      | .malformed => .error .valueError
      | .dict none => .error .keyError
      | .dict (some items) =>
        match buildProviderData items [] with
        | .error e => .error e
        | .ok m => .ok (some m)
    else
      .ok none

/-- One attendee object of a calendar event; `none` models a missing
`email` key (read via `attendee.get('email')`). -/
structure Attendee where
  email : Option String
deriving DecidableEq

/-- A calendar event as the code reads it: `summary` and `attendees` are
both read with defaults. -/
structure Event where
  summary : Option String
  attendees : Option (List Attendee)
deriving DecidableEq

/-- Embedding of `get_upcoming_meetings`: the whole call is inside try/except, any
exception yields the empty list. -/
def get_upcoming_meetings (net : Except PyErr (List Event)) : List Event :=
  match net with
  | .error _ => []
  | .ok evs => evs

/-- A Drive file as returned by `files().list` (fields id, name, mimeType). -/
structure DriveFile where
  id : String
  name : String
  mimeType : String
deriving DecidableEq

/-- Python's `pat in s` substring test. -/
def strContains (s pat : String) : Bool :=
  (s.splitOn pat).length != 1

/-- Python `'google-apps' in mime_type`: chooses export over raw media fetch. -/
def needsExport (f : DriveFile) : Bool :=
  strContains f.mimeType "google-apps"

/-- The per-file content loop of `search_drive_and_get_content`: fetches
each file's content in order, stopping at the first exception. -/
def drive_loop (contentOf : String → Bool → Except PyErr String) :
    List DriveFile → Except PyErr (List String)
  | [] => .ok []
  | f :: rest =>
    match contentOf f.id (needsExport f) with
    | .error e => .error e
    | .ok text =>
      match drive_loop contentOf rest with
      | .error e => .error e
      | .ok l => .ok (text :: l)

/-- Embedding of `search_drive_and_get_content`: the file listing and the whole content
loop sit inside one try/except whose handler returns `[]`, so any exception
anywhere discards everything collected so far. -/
def search_drive_and_get_content (listNet : Except PyErr (List DriveFile))
    (contentOf : String → Bool → Except PyErr String) : List String :=
  match (match listNet with
         | .error e => Except.error e
         | .ok files =>
           if files.isEmpty then Except.ok []
           else drive_loop contentOf files) with
  | .error _ => []
  | .ok l => l

/-- A Notion page as the title-extraction chain reads it: `none` models a
break anywhere along `properties → title → title` (each step defaulted, so
the chain ends in `'Untitled'`); `some l` is the final rich-text list, whose
head is indexed with `[0]` (IndexError when empty) and whose `plain_text`
key is read with default `'Untitled'`. -/
structure NotionPage where
  titleList : Option (List (Option String))
deriving DecidableEq

/-- Body of the Notion search response; `dict none` models a JSON object
without the `results` key (read with default `[]`). -/
inductive NotionBody where
  | malformed
  | dict (results : Option (List NotionPage))
deriving DecidableEq

/-- Title extraction for one Notion page (see `NotionPage`). -/
def notionTitle (p : NotionPage) : Except PyErr String :=
  match p.titleList with
  | none => .ok "Untitled"
  | some [] => .error .indexError
  | some (t :: _) => .ok (t.getD "Untitled")

/-- The list comprehension over `results`, evaluated left to right. -/
def notionTitles : List NotionPage → Except PyErr (List String)
  | [] => .ok []
  | p :: rest =>
    match notionTitle p with
    | .error e => .error e
    | .ok t =>
      match notionTitles rest with
      | .error e => .error e
      | .ok l => .ok (t :: l)

/-- Embedding of `search_notion_and_get_content`: there is no try/except, so a network
exception or a parse/extraction exception propagates; only a non-200 status
is handled (returns `[]`). -/
def search_notion_and_get_content (net : Except PyErr (Resp NotionBody)) :
    Except PyErr (List String) :=
  match net with
  | .error e => .error e
  | .ok resp =>
    if resp.status ≠ 200 then .ok []
    else
      match resp.body with
      | .malformed => .error .valueError
      | .dict none => .ok []
      | .dict (some pages) => notionTitles pages

/-- Sequence a list of optional strings, raising TypeError at the first
`None`, as `str.join` does on a list containing `None`. -/
def seqOpts : List (Option String) → Except PyErr (List String)
  | [] => .ok []
  | none :: _ => .error .typeError
  | some s :: rest => (seqOpts rest).map (fun l => s :: l)

/-- Python `sep.join(xs)` over a list that may contain `None`. -/
def pyJoin (sep : String) (xs : List (Option String)) : Except PyErr String :=
  (seqOpts xs).map (String.intercalate sep)

/-- One element of the summarization model's 200 response array; `none`
models a missing `summary_text` key. -/
structure HFItem where
  summary_text : Option String
deriving DecidableEq

/-- Body of the summarization response. -/
inductive HFBody where
  | malformed
  | results (items : List HFItem)
deriving DecidableEq

/-- The sentinel returned by `generate_briefing` on any handled failure. -/
def briefingSentinel : String := "Error: Could not generate briefing."

/-- An outbound vendor call recorded in the orchestration trace. -/
inductive Call where
  | fetchTokens
  | fetchMeetings
  | driveSearch (query : String)
  | notionSearch (query : String)
  | summarize (title : String) (attendees : List (Option String))
      (docs : List String) (prompt : String)
  | slackSend (userId : String) (text : String)
deriving DecidableEq

/-- The f-string prompt of `generate_briefing`. -/
def buildPrompt (title joined fullContext : String) : String :=
  "Meeting Title: " ++ title ++ "\nAttendees: " ++ joined ++
    "\n\nContext:\n" ++ fullContext ++
    "\n\nProvide a concise briefing summarizing the purpose, key points, action items, and potential questions.\n"

/-- Embedding of `generate_briefing`: the prompt (including the attendee join, which can
raise TypeError) is built before the try block; the HTTP call and all
response handling are inside try/except, so any failure there yields the
sentinel string.  Returns the calls made to the summarization endpoint
together with the result. -/
def generate_briefing (title : String) (attendees : List (Option String))
    (docs : List String) (net : Except PyErr (Resp HFBody)) :
    List Call × Except PyErr String :=
  let fullContext := String.intercalate "\n---\n" docs
  match pyJoin ", " attendees with
  | .error e => ([], .error e)
  | .ok joined =>
    let call := Call.summarize title attendees docs
      (buildPrompt title joined fullContext)
    match net with
    | .error _ => ([call], .ok briefingSentinel)
    | .ok resp =>
      if resp.status = 200 then
        match resp.body with
        | .malformed => ([call], .ok briefingSentinel)
        | .results [] => ([call], .ok briefingSentinel)
        | .results (it :: _) =>
          match it.summary_text with
          | none => ([call], .ok briefingSentinel)
          | some s => ([call], .ok s)
      else ([call], .ok briefingSentinel)

/-- Body of the Slack response: `malformed` models a body on which
`response.json()` raises; otherwise only the `ok` key is read (with
`.get`, so `none` models an absent key). -/
inductive SlackBody where
  | malformed
  | dict (ok : Option Bool)
deriving DecidableEq

/-- Observable outcome of `send_slack_message`. -/
inductive SlackResult where
  | skippedNoUser
  | sentOk
  | loggedError
deriving DecidableEq

/-- Python truthiness of an optional string (`None` and `''` are falsy). -/
def truthyOptStr : Option String → Bool
  | none => false
  | some s => s ≠ ""

/-- Embedding of `send_slack_message`: a falsy user id short-circuits before any call;
otherwise the message is posted and `response.json().get('ok')` decides
success — with no try/except, so a network exception propagates and a
malformed body makes `json()` raise.  HTTP status is never consulted. -/
def send_slack_message (userId : Option String) (text : String)
    (net : Except PyErr (Resp SlackBody)) : List Call × Except PyErr SlackResult :=
  if !truthyOptStr userId then ([], .ok .skippedNoUser)
  else
    match userId with
    | none => ([], .ok .skippedNoUser)
    | some uid =>
      match net with
      | .error e => ([Call.slackSend uid text], .error e)
      | .ok resp =>
        match resp.body with
        | .malformed => ([Call.slackSend uid text], .error .valueError)
        | .dict ok =>
          if ok = some true then ([Call.slackSend uid text], .ok .sentOk)
          else ([Call.slackSend uid text], .ok .loggedError)

/-- The `token` field of the session-validation 200 body. -/
structure SessTok where
  loginIds : Option (List String)
deriving DecidableEq

/-- Body of the session-validation response: `emptyDict` is a falsy `{}`
(so `if user_details:` fails); `dict none` is a non-empty object without
the `token` key. -/
inductive SessionBody where
  | malformed
  | emptyDict
  | dict (token : Option SessTok)
deriving DecidableEq

/-- Embedding of `validate_descope_session`: returns `response.json()` on 200 (which can
itself raise on a malformed body — no try/except), `None` otherwise; a
network exception propagates. -/
def validate_descope_session (net : Except PyErr (Resp SessionBody)) :
    Except PyErr (Option SessionBody) :=
  match net with
  | .error e => .error e
  | .ok resp =>
    if resp.status = 200 then
      match resp.body with
      | .malformed => .error .valueError
      | b => .ok (some b)
    else .ok none

/-- Caller-facing outcome of POST /validate-session. -/
inductive SessionOutcome where
  | badRequest
  | success (loginId : String)
  | unauthorized
deriving DecidableEq

/-- The /validate-session route: missing/empty token gives 400; a falsy
(`None` or `{}`) validation result gives 401; on a truthy result the
subject is read via `user_details['token']['loginIds'][0]`, whose KeyError
or IndexError propagates unhandled. -/
def validate_session (token : Option String) (net : Except PyErr (Resp SessionBody)) :
    Except PyErr SessionOutcome :=
  if !truthyOptStr token then .ok .badRequest
  else
    match validate_descope_session net with
    | .error e => .error e
    | .ok none => .ok .unauthorized
    | .ok (some .emptyDict) => .ok .unauthorized
    | .ok (some .malformed) => .error .valueError
    | .ok (some (.dict none)) => .error .keyError
    | .ok (some (.dict (some st))) =>
      match st.loginIds with
      | none => .error .keyError
      | some [] => .error .indexError
      | some (l :: _) => .ok (.success l)

/-- Oracle for every external interaction one orchestration run makes. -/
structure World where
  tokensNet : Except PyErr (Resp TokensBody)
  calendarNet : Except PyErr (List Event)
  driveList : Except PyErr (List DriveFile)
  driveContent : String → Bool → Except PyErr String
  notionNet : Except PyErr (Resp NotionBody)
  hfNet : Except PyErr (Resp HFBody)
  slackNet : Except PyErr (Resp SlackBody)

/-- Python `search_query = title.split(' ')[0]`: the source splits on the single
space character (not general whitespace), and the first component of that
split is exactly the prefix of the title before its first space. -/
def derivedQuery (title : String) : String :=
  String.mk (title.toList.takeWhile (fun c => c != ' '))

/-- The tail of `run_catalyst_for_user` from the empty-context check on:
briefing generation (called twice in the source, the second result
overwriting the first) followed by the Slack section. -/
def afterDocs (w : World) (trace : List Call) (title : String)
    (attendees : List (Option String)) (docs : List String)
    (toks : List (String × TokenRecord)) : List Call × Except PyErr Unit :=
  if docs.isEmpty then (trace, .ok ())
  else
    match generate_briefing title attendees docs w.hfNet with
    | (c1, .error e) => (trace ++ c1, .error e)
    | (c1, .ok _) =>
      match generate_briefing title attendees docs w.hfNet with
      | (c2, .error e) => (trace ++ c1 ++ c2, .error e)
      | (c2, .ok briefing) =>
        match dictGet toks "slack" with
        | none => (trace ++ c1 ++ c2, .ok ())
        | some sd =>
          if sd.accessToken ≠ "" && truthyOptStr sd.userId then
            match send_slack_message sd.userId briefing w.slackNet with
            | (c3, .error e) => (trace ++ c1 ++ c2 ++ c3, .error e)
            | (c3, .ok _) => (trace ++ c1 ++ c2 ++ c3, .ok ())
          else (trace ++ c1 ++ c2, .ok ())

/-- Embedding of `run_catalyst_for_user`: the linear orchestrator.  Returns the ordered
trace of outbound calls and the run's outcome (`.error` when an unhandled
Python exception escapes). -/
def run_catalyst_for_user (w : World) : List Call × Except PyErr Unit :=
  match get_tokens_for_user w.tokensNet with
  | .error e => ([Call.fetchTokens], .error e)
  | .ok none => ([Call.fetchTokens], .ok ())
  | .ok (some toks) =>
    if toks.isEmpty then ([Call.fetchTokens], .ok ())
    else
      match dictGet toks "google" with
      | none => ([Call.fetchTokens], .ok ())
      | some _ =>
        match get_upcoming_meetings w.calendarNet with
        | [] => ([Call.fetchTokens, Call.fetchMeetings], .ok ())
        | next :: _ =>
          let title := next.summary.getD "No Title"
          let attendees := (next.attendees.getD []).map Attendee.email
          let q := derivedQuery title
          let driveDocs := search_drive_and_get_content w.driveList w.driveContent
          match dictGet toks "notion" with
          | none =>
            afterDocs w [Call.fetchTokens, Call.fetchMeetings, Call.driveSearch q]
              title attendees driveDocs toks
          | some _ =>
            match search_notion_and_get_content w.notionNet with
            | .error e =>
              ([Call.fetchTokens, Call.fetchMeetings, Call.driveSearch q,
                Call.notionSearch q], .error e)
            | .ok notionDocs =>
              afterDocs w
                [Call.fetchTokens, Call.fetchMeetings, Call.driveSearch q,
                 Call.notionSearch q]
                title attendees (driveDocs ++ notionDocs) toks

/-- Is this trace entry a summarization-endpoint call? -/
def isSummarizeCall : Call → Bool
  | .summarize _ _ _ _ => true
  | _ => false

/-- Is this trace entry a Drive search call? -/
def isDriveCall : Call → Bool
  | .driveSearch _ => true
  | _ => false

/-- Is this trace entry a downstream (document, summarization or chat)
call, as opposed to token/meeting fetching? -/
def isDownstream : Call → Bool
  | .driveSearch _ => true
  | .notionSearch _ => true
  | .summarize _ _ _ _ => true
  | .slackSend _ _ => true
  | _ => false

/-- The spec's reading of the search term: the title's first
whitespace-delimited token (leading whitespace skipped, token ended by any
whitespace character). -/
def firstWhitespaceToken (t : String) : String :=
  String.mk ((t.toList.dropWhile Char.isWhitespace).takeWhile
    (fun c => !c.isWhitespace))

/-- Well-formedness of one token-vault item: both directly-indexed keys
present. -/
def TokenItem.wf (it : TokenItem) : Bool :=
  it.provider.isSome && it.accessToken.isSome

/-- A fully successful world: google connected (drive and calendar work,
one upcoming meeting with two attendees, one matching drive document),
notion and slack not connected, summarization succeeds. -/
def w1 : World where
  tokensNet := .ok ⟨200, .dict (some [⟨some "google", some "g-tok", none⟩])⟩
  calendarNet := .ok [⟨some "Budget Review",
    some [⟨some "a@x.com"⟩, ⟨some "b@x.com"⟩]⟩]
  driveList := .ok [⟨"f1", "Budget plan", "application/vnd.google-apps.document"⟩]
  driveContent := fun _ _ => .ok "Budget doc content"
  notionNet := .ok ⟨200, .dict (some [])⟩
  hfNet := .ok ⟨200, .results [⟨some "A summary."⟩]⟩
  slackNet := .ok ⟨200, .dict (some true)⟩

/-- Like `w1` but the single meeting's attendee record has no email key. -/
def w9 : World :=
  { w1 with calendarNet := .ok [⟨some "Budget Review", some [⟨none⟩]⟩] }

/-- Content oracle for the drive all-or-nothing scenario: the first file
fetches fine, the second raises. -/
def c10content : String → Bool → Except PyErr String :=
  fun id _ => if id == "f2" then .error (.netError "boom") else .ok "doc one"

/-- File listing for the drive all-or-nothing scenario. -/
def c10files : List DriveFile :=
  [⟨"f1", "n1", "text/plain"⟩, ⟨"f2", "n2", "text/plain"⟩]

/-- The provider dict produced from `w1`'s token-vault response. -/
def toks1 : List (String × TokenRecord) := [("google", ⟨"g-tok", none⟩)]

/-- Like `w1` but the calendar returns no upcoming events. -/
def w7e : World := { w1 with calendarNet := .ok [] }

/-- Like `w1` but the single meeting's title contains a tab instead of a
space. -/
def w8 : World := { w1 with calendarNet := .ok [⟨some "A\tB", some []⟩] }

/-- C1: in the world `w1` (tokens resolved, calendar connected, one
meeting, non-empty document context) the orchestrator calls the
summarization endpoint twice — not once — and with identical
(title, attendees, documents) arguments both times, because the
briefing-generation block is duplicated verbatim in the source. -/
theorem C1_summarize_called_twice :
    (run_catalyst_for_user w1).1.countP isSummarizeCall = 2 ∧
    (run_catalyst_for_user w1).1.filter isSummarizeCall =
      [Call.summarize "Budget Review" [some "a@x.com", some "b@x.com"]
         ["Budget doc content"]
         (buildPrompt "Budget Review" "a@x.com, b@x.com" "Budget doc content"),
       Call.summarize "Budget Review" [some "a@x.com", some "b@x.com"]
         ["Budget doc content"]
         (buildPrompt "Budget Review" "a@x.com, b@x.com" "Budget doc content")] ∧
    (run_catalyst_for_user w1).2 = .ok () :=
  ⟨rfl, rfl, rfl⟩

/-- C2 counterexample: an exception during the wiki (Notion) search HTTP
call propagates out of `search_notion_and_get_content` instead of
yielding the empty list. -/
theorem C2_counterexample :
    search_notion_and_get_content (.error (PyErr.netError "ConnectionError")) =
      .error (PyErr.netError "ConnectionError") :=
  rfl

/-- C2 amended: the drive search returns the empty list when its API call
raises; the wiki search returns the empty list on any non-2xx response,
but an exception raised during the wiki HTTP call propagates to the
caller. -/
theorem C2_amended (e : PyErr) (c : String → Bool → Except PyErr String)
    (resp : Resp NotionBody) (h : resp.status ≠ 200) :
    search_drive_and_get_content (.error e) c = [] ∧
    search_notion_and_get_content (.ok resp) = .ok [] ∧
    search_notion_and_get_content (.error e) = .error e := by
  refine ⟨rfl, ?_, rfl⟩
  simp [search_notion_and_get_content, h]

/-- C2 amended, witness: a 404 wiki response yields the empty list. -/
theorem C2_amended_witness :
    search_notion_and_get_content (.ok ⟨404, NotionBody.malformed⟩) = .ok [] :=
  (C2_amended PyErr.keyError (fun _ _ => Except.ok "")
    ⟨404, NotionBody.malformed⟩ (by decide)).2.1

/-- C9: for a meeting whose attendee record lacks the email field, the
orchestrator's attendee extraction yields a list containing `none`, and
the comma-join in `generate_briefing` raises TypeError, aborting the run
before any summarization call is made. -/
theorem C9_missing_email_raises :
    ((Event.mk (some "Budget Review") (some [⟨none⟩])).attendees.getD []).map
        Attendee.email = [none] ∧
    (run_catalyst_for_user w9).2 = .error PyErr.typeError ∧
    (run_catalyst_for_user w9).1.countP isSummarizeCall = 0 :=
  ⟨rfl, rfl, rfl⟩

/-- If the content fetch of some listed file raises, the whole drive
content loop raises. -/
theorem drive_loop_error_of_mem (c : String → Bool → Except PyErr String)
    (files : List DriveFile) (f : DriveFile) (hf : f ∈ files) (e : PyErr)
    (he : c f.id (needsExport f) = .error e) :
    ∃ e2, drive_loop c files = .error e2 := by
  induction files with
  | nil => cases hf
  | cons g rest ih =>
    cases hf with
    | head => exact ⟨e, by simp [drive_loop, he]⟩
    | tail _ hmem =>
      cases hcg : c g.id (needsExport g) with
      | error e2 => exact ⟨e2, by simp [drive_loop, hcg]⟩
      | ok s =>
        obtain ⟨e2, h2⟩ := ih hmem
        exact ⟨e2, by simp [drive_loop, hcg, h2]⟩

/-- C10: drive content collection is all-or-nothing — if any listed
file's content fetch raises, `search_drive_and_get_content` returns the
empty list, discarding contents already collected for earlier files. -/
theorem C10_drive_all_or_nothing (files : List DriveFile)
    (c : String → Bool → Except PyErr String) (f : DriveFile)
    (hf : f ∈ files) (e : PyErr) (he : c f.id (needsExport f) = .error e) :
    search_drive_and_get_content (.ok files) c = [] := by
  obtain ⟨e2, h2⟩ := drive_loop_error_of_mem c files f hf e he
  have hne : files.isEmpty = false := by
    cases files
    · cases hf
    · rfl
  simp [search_drive_and_get_content, hne, h2]

/-- C10 witness: two files, the first fetches fine, the second raises;
the result is the empty list even though the first file's content was
collected. -/
theorem C10_witness :
    search_drive_and_get_content (.ok c10files) c10content = [] ∧
    c10content "f1" (needsExport ⟨"f1", "n1", "text/plain"⟩) = .ok "doc one" :=
  ⟨C10_drive_all_or_nothing c10files c10content ⟨"f2", "n2", "text/plain"⟩
     (by decide) (.netError "boom") rfl, rfl⟩

/-- C3 counterexample: an exception during the identity provider's HTTP
call propagates out of the /validate-session handler instead of yielding
the 401 invalid-session result. -/
theorem C3_counterexample :
    validate_session (some "tok") (.error (PyErr.netError "ConnectionError")) =
      .error (PyErr.netError "ConnectionError") :=
  rfl

/-- C3 amended: a non-2xx identity-provider response yields the 401
invalid-session result, but an exception during the call, or a 2xx
response whose body lacks the subject (login id) field, raises an
unhandled exception instead of returning 401. -/
theorem C3_amended (tok : String) (htok : tok ≠ "") (resp : Resp SessionBody)
    (hst : resp.status ≠ 200) (e : PyErr) :
    validate_session (some tok) (.ok resp) = .ok .unauthorized ∧
    validate_session (some tok) (.error e) = .error e ∧
    validate_session (some tok) (.ok ⟨200, .dict none⟩) = .error .keyError ∧
    validate_session (some tok) (.ok ⟨200, .dict (some ⟨none⟩)⟩) = .error .keyError ∧
    validate_session (some tok) (.ok ⟨200, .dict (some ⟨some []⟩)⟩) =
      .error .indexError := by
  refine ⟨?_, ?_, ?_, ?_, ?_⟩ <;>
    simp [validate_session, validate_descope_session, truthyOptStr, htok, hst]

/-- C3 amended, witness: a 401 provider response yields the 401
invalid-session outcome. -/
theorem C3_amended_witness :
    validate_session (some "tok") (.ok ⟨401, SessionBody.emptyDict⟩) =
      .ok .unauthorized :=
  (C3_amended "tok" (by decide) ⟨401, SessionBody.emptyDict⟩ (by decide)
    PyErr.keyError).1

/-- C4 counterexample: a 2xx token-vault response whose body lacks the
providers key makes `get_tokens_for_user` raise KeyError rather than
return an absent result. -/
theorem C4_counterexample :
    get_tokens_for_user (.ok ⟨200, TokensBody.dict none⟩) = .error .keyError :=
  rfl

/-- Building the provider dict from well-formed items never raises, and a
provider named by no item stays absent. -/
theorem buildProviderData_wf (items : List TokenItem)
    (h : ∀ it ∈ items, it.wf = true) (acc : List (String × TokenRecord)) :
    ∃ m, buildProviderData items acc = .ok m ∧
      ∀ k, (∀ it ∈ items, it.provider ≠ some k) → dictGet m k = dictGet acc k := by
  induction items generalizing acc with
  | nil => exact ⟨acc, rfl, fun k _ => rfl⟩
  | cons it rest ih =>
    have hwf : it.provider.isSome ∧ it.accessToken.isSome := by
      have := h it (by simp)
      simpa [TokenItem.wf, Bool.and_eq_true] using this
    obtain ⟨p, hp⟩ := Option.isSome_iff_exists.mp hwf.1
    obtain ⟨a, ha⟩ := Option.isSome_iff_exists.mp hwf.2
    have hrest : ∀ x ∈ rest, x.wf = true :=
      fun x hx => h x (List.mem_cons_of_mem _ hx)
    obtain ⟨m, hm, hlook⟩ := ih hrest ((p, ⟨a, it.providerUserId⟩) :: acc)
    refine ⟨m, ?_, ?_⟩
    · simp [buildProviderData, hp, ha, hm]
    · intro k hk
      have hkrest : ∀ x ∈ rest, x.provider ≠ some k :=
        fun x hx => hk x (List.mem_cons_of_mem _ hx)
      have h1 := hlook k hkrest
      rw [h1]
      have hpk : p ≠ k := by
        intro hEq
        exact hk it (by simp) (by rw [hp, hEq])
      have hbeq : (p == k) = false := by simp [hpk]
      simp [dictGet, List.find?, hbeq]

/-- C4 amended: provided the HTTP call itself returns, the token broker
gives an absent result (`None`) for any non-2xx response, and on a 2xx
response whose providers list is well formed it never raises and leaves
any provider named by no item absent from the returned mapping; a network
exception or a malformed/incomplete 2xx body raises instead. -/
theorem C4_amended (items : List TokenItem) (h : ∀ it ∈ items, it.wf = true)
    (st : Nat) (hst : st ≠ 200) (body : TokensBody) :
    get_tokens_for_user (.ok ⟨st, body⟩) = .ok none ∧
    ∃ m, get_tokens_for_user (.ok ⟨200, .dict (some items)⟩) = .ok (some m) ∧
      ∀ k, (∀ it ∈ items, it.provider ≠ some k) → dictGet m k = none := by
  constructor
  · simp [get_tokens_for_user, hst]
  · obtain ⟨m, hm, hlook⟩ := buildProviderData_wf items h []
    refine ⟨m, ?_, fun k hk => ?_⟩
    · simp [get_tokens_for_user, hm]
    · exact (hlook k hk).trans rfl

/-- C4 amended, witness: a 500 token-vault response yields the absent
(`None`) result without raising. -/
theorem C4_amended_witness :
    get_tokens_for_user (.ok ⟨500, TokensBody.malformed⟩) = .ok none :=
  (C4_amended [⟨some "google", some "t", none⟩] (by decide) 500 (by decide)
    TokensBody.malformed).1

/-- C5 counterexample: a network exception during the Slack post
propagates out of `send_slack_message` instead of degrading to a logged
no-op. -/
theorem C5_counterexample :
    send_slack_message (some "U1") "hello" (.error (PyErr.netError "ConnectionError")) =
      ([Call.slackSend "U1" "hello"], .error (PyErr.netError "ConnectionError")) :=
  rfl

/-- C5 amended: a missing or empty destination id short-circuits with no
call made; when the HTTP call returns a JSON body the function never
raises — regardless of HTTP status, an `ok` flag of true means success
and anything else a logged no-op — but a network exception or a malformed
(non-JSON) payload raises to the orchestrator. -/
theorem C5_amended (uid : String) (huid : uid ≠ "") (text : String) (st : Nat)
    (okf : Option Bool) (e : PyErr) :
    send_slack_message none text (.ok ⟨st, .dict okf⟩) = ([], .ok .skippedNoUser) ∧
    send_slack_message (some "") text (.ok ⟨st, .dict okf⟩) =
      ([], .ok .skippedNoUser) ∧
    send_slack_message (some uid) text (.ok ⟨st, .dict okf⟩) =
      ([Call.slackSend uid text],
        .ok (if okf = some true then SlackResult.sentOk else SlackResult.loggedError)) ∧
    send_slack_message (some uid) text (.ok ⟨st, .malformed⟩) =
      ([Call.slackSend uid text], .error .valueError) ∧
    send_slack_message (some uid) text (.error e) =
      ([Call.slackSend uid text], .error e) := by
  refine ⟨rfl, rfl, ?_, ?_, ?_⟩
  · simp [send_slack_message, truthyOptStr, huid]
    split <;> rfl
  · simp [send_slack_message, truthyOptStr, huid]
  · simp [send_slack_message, truthyOptStr, huid]

/-- C5 amended, witness: a 500 response whose body carries `ok: false`
degrades to a logged no-op without raising. -/
theorem C5_amended_witness :
    send_slack_message (some "U1") "hi" (.ok ⟨500, SlackBody.dict (some false)⟩) =
      ([Call.slackSend "U1" "hi"], .ok SlackResult.loggedError) := by
  have h := (C5_amended "U1" (by decide) "hi" 500 (some false) PyErr.keyError).2.2.1
  simpa using h

/-- Sequencing an all-present attendee list never raises. -/
theorem seqOpts_map_some (l : List String) : seqOpts (l.map some) = .ok l := by
  induction l with
  | nil => rfl
  | cons s rest ih => simp [seqOpts, ih, Except.map]

/-- Joining an all-present attendee list never raises. -/
theorem pyJoin_map_some (sep : String) (l : List String) :
    pyJoin sep (l.map some) = .ok (String.intercalate sep l) := by
  simp [pyJoin, seqOpts_map_some, Except.map]

/-- C6: for every title, all-string attendee list, document list and
summarization outcome, `generate_briefing` never raises; an exception or
a non-2xx response yields exactly the sentinel string, and a well-formed
2xx response yields the first result's summary field. -/
theorem C6_generate_briefing_total (title : String) (attendees : List String)
    (docs : List String) (net : Except PyErr (Resp HFBody)) :
    (∃ s, (generate_briefing title (attendees.map some) docs net).2 = .ok s) ∧
    (∀ e, (generate_briefing title (attendees.map some) docs (.error e)).2 =
        .ok briefingSentinel) ∧
    (∀ resp : Resp HFBody, resp.status ≠ 200 →
        (generate_briefing title (attendees.map some) docs (.ok resp)).2 =
          .ok briefingSentinel) ∧
    (∀ (it : HFItem) (rest : List HFItem) (s : String), it.summary_text = some s →
        (generate_briefing title (attendees.map some) docs
            (.ok ⟨200, .results (it :: rest)⟩)).2 = .ok s) := by
  refine ⟨?_, ?_, ?_, ?_⟩
  · cases net with
    | error e =>
      exact ⟨briefingSentinel, by simp [generate_briefing, pyJoin_map_some]⟩
    | ok resp =>
      obtain ⟨st, body⟩ := resp
      by_cases hst : st = 200
      · subst hst
        cases body with
        | malformed =>
          exact ⟨briefingSentinel, by simp [generate_briefing, pyJoin_map_some]⟩
        | results items =>
          cases items with
          | nil =>
            exact ⟨briefingSentinel, by simp [generate_briefing, pyJoin_map_some]⟩
          | cons it rest =>
            cases hsum : it.summary_text with
            | none =>
              exact ⟨briefingSentinel,
                by simp [generate_briefing, pyJoin_map_some, hsum]⟩
            | some s =>
              exact ⟨s, by simp [generate_briefing, pyJoin_map_some, hsum]⟩
      · exact ⟨briefingSentinel, by simp [generate_briefing, pyJoin_map_some, hst]⟩
  · intro e
    simp [generate_briefing, pyJoin_map_some]
  · intro resp h
    simp [generate_briefing, pyJoin_map_some, h]
  · intro it rest s hs
    simp [generate_briefing, pyJoin_map_some, hs]

/-- C6 witness: a well-formed 2xx summarization response yields its first
result's summary. -/
theorem C6_witness :
    (generate_briefing "Sync" (["a@x.com"].map some) ["doc"]
        (.ok ⟨200, .results [⟨some "S"⟩]⟩)).2 = .ok "S" :=
  (C6_generate_briefing_total "Sync" ["a@x.com"] ["doc"]
      (.ok ⟨200, .results [⟨some "S"⟩]⟩)).2.2.2 ⟨some "S"⟩ [] "S" rfl

/-- Lemma: `generate_briefing` issues no call (join raised) or exactly one
summarization call carrying its own title, attendees and documents. -/
theorem generate_briefing_trace_shape (title : String) (ats : List (Option String))
    (docs : List String) (net : Except PyErr (Resp HFBody)) :
    (generate_briefing title ats docs net).1 = [] ∨
    ∃ p, (generate_briefing title ats docs net).1 =
      [Call.summarize title ats docs p] := by
  cases hj : pyJoin ", " ats with
  | error e =>
    left
    simp [generate_briefing, hj]
  | ok joined =>
    right
    refine ⟨buildPrompt title joined (String.intercalate "\n---\n" docs), ?_⟩
    cases net with
    | error e => simp [generate_briefing, hj]
    | ok resp =>
      obtain ⟨st, body⟩ := resp
      by_cases hst : st = 200
      · subst hst
        cases body with
        | malformed => simp [generate_briefing, hj]
        | results items =>
          cases items with
          | nil => simp [generate_briefing, hj]
          | cons it rest =>
            cases hsum : it.summary_text with
            | none => simp [generate_briefing, hj, hsum]
            | some s => simp [generate_briefing, hj, hsum]
      · simp [generate_briefing, hj, hst]

/-- Lemma: `send_slack_message` issues no call (falsy user id) or exactly one
chat post. -/
theorem send_slack_trace_shape (uid : Option String) (text : String)
    (net : Except PyErr (Resp SlackBody)) :
    (send_slack_message uid text net).1 = [] ∨
    ∃ u, (send_slack_message uid text net).1 = [Call.slackSend u text] := by
  cases uid with
  | none => left; rfl
  | some u =>
    by_cases hu : u = ""
    · left
      simp [send_slack_message, truthyOptStr, hu]
    · right
      refine ⟨u, ?_⟩
      cases net with
      | error e => simp [send_slack_message, truthyOptStr, hu]
      | ok resp =>
        obtain ⟨st, body⟩ := resp
        cases body with
        | malformed => simp [send_slack_message, truthyOptStr, hu]
        | dict okf =>
          by_cases hok : okf = some true
          · simp [send_slack_message, truthyOptStr, hu, hok]
          · simp [send_slack_message, truthyOptStr, hu, hok]

/-- Every call recorded by the briefing/notification tail beyond the
incoming trace is a summarization call with the tail's own title,
attendees and documents, or a chat post. -/
theorem afterDocs_mem (w : World) (trace : List Call) (title : String)
    (ats : List (Option String)) (docs : List String)
    (toks : List (String × TokenRecord)) (c : Call)
    (hc : c ∈ (afterDocs w trace title ats docs toks).1) :
    c ∈ trace ∨ (∃ p, c = Call.summarize title ats docs p) ∨
      ∃ u m, c = Call.slackSend u m := by
  have hgb : ∀ x ∈ (generate_briefing title ats docs w.hfNet).1,
      ∃ p, x = Call.summarize title ats docs p := by
    intro x hx
    rcases generate_briefing_trace_shape title ats docs w.hfNet with h | ⟨p, h⟩
    · rw [h] at hx
      cases hx
    · rw [h] at hx
      exact ⟨p, List.mem_singleton.mp hx⟩
  have hsl : ∀ (u0 : Option String) (m0 : String) (x : Call),
      x ∈ (send_slack_message u0 m0 w.slackNet).1 → ∃ u m, x = Call.slackSend u m := by
    intro u0 m0 x hx
    rcases send_slack_trace_shape u0 m0 w.slackNet with h | ⟨u, h⟩
    · rw [h] at hx
      cases hx
    · rw [h] at hx
      exact ⟨u, m0, List.mem_singleton.mp hx⟩
  unfold afterDocs at hc
  split at hc
  · exact Or.inl hc
  · split at hc
    · rename_i c1 e heq
      rcases List.mem_append.mp hc with h | h
      · exact Or.inl h
      · exact Or.inr (Or.inl (hgb c (by rw [heq]; exact h)))
    · rename_i c1 b1 heq
      split at hc
      · rename_i c2 e heq2
        simp at heq2
      · rename_i c2 b2 heq2
        obtain ⟨rfl, rfl⟩ : c1 = c2 ∧ b1 = b2 := by simpa using heq2
        split at hc
        · rcases List.mem_append.mp hc with h | h
          · rcases List.mem_append.mp h with h2 | h2
            · exact Or.inl h2
            · exact Or.inr (Or.inl (hgb c (by rw [heq]; exact h2)))
          · exact Or.inr (Or.inl (hgb c (by rw [heq]; exact h)))
        · rename_i sd hsd
          split at hc
          · split at hc
            · rename_i c3 e heq3
              rcases List.mem_append.mp hc with h | h
              · rcases List.mem_append.mp h with h2 | h2
                · rcases List.mem_append.mp h2 with h3 | h3
                  · exact Or.inl h3
                  · exact Or.inr (Or.inl (hgb c (by rw [heq]; exact h3)))
                · exact Or.inr (Or.inl (hgb c (by rw [heq]; exact h2)))
              · exact Or.inr (Or.inr (hsl sd.userId b1 c (by rw [heq3]; exact h)))
            · rename_i c3 r3 heq3
              rcases List.mem_append.mp hc with h | h
              · rcases List.mem_append.mp h with h2 | h2
                · rcases List.mem_append.mp h2 with h3 | h3
                  · exact Or.inl h3
                  · exact Or.inr (Or.inl (hgb c (by rw [heq]; exact h3)))
                · exact Or.inr (Or.inl (hgb c (by rw [heq]; exact h2)))
              · exact Or.inr (Or.inr (hsl sd.userId b1 c (by rw [heq3]; exact h)))
          · rcases List.mem_append.mp hc with h | h
            · rcases List.mem_append.mp h with h2 | h2
              · exact Or.inl h2
              · exact Or.inr (Or.inl (hgb c (by rw [heq]; exact h2)))
            · exact Or.inr (Or.inl (hgb c (by rw [heq]; exact h)))

/-- The incoming trace is preserved by the briefing/notification tail. -/
theorem afterDocs_trace_sub (w : World) (trace : List Call) (title : String)
    (ats : List (Option String)) (docs : List String)
    (toks : List (String × TokenRecord)) (c : Call) (hc : c ∈ trace) :
    c ∈ (afterDocs w trace title ats docs toks).1 := by
  unfold afterDocs
  split
  · exact hc
  · split
    · exact List.mem_append_left _ hc
    · split
      · exact List.mem_append_left _ (List.mem_append_left _ hc)
      · split
        · exact List.mem_append_left _ (List.mem_append_left _ hc)
        · split
          · split
            · exact List.mem_append_left _
                (List.mem_append_left _ (List.mem_append_left _ hc))
            · exact List.mem_append_left _
                (List.mem_append_left _ (List.mem_append_left _ hc))
          · exact List.mem_append_left _ (List.mem_append_left _ hc)

/-- Once the orchestrator reaches a non-empty meeting list, every call it
records is the token fetch, the meeting fetch, the drive/notion search for
the query derived from the FIRST event's title, a summarization call
carrying the first event's title and extracted attendees, or a chat post. -/
theorem run_mem (w : World) (toks : List (String × TokenRecord))
    (h1 : get_tokens_for_user w.tokensNet = .ok (some toks))
    (h2 : toks.isEmpty = false) (g : TokenRecord)
    (h3 : dictGet toks "google" = some g)
    (ev : Event) (rest : List Event) (hcal : w.calendarNet = .ok (ev :: rest))
    (c : Call) (hc : c ∈ (run_catalyst_for_user w).1) :
    c = Call.fetchTokens ∨ c = Call.fetchMeetings ∨
    c = Call.driveSearch (derivedQuery (ev.summary.getD "No Title")) ∨
    c = Call.notionSearch (derivedQuery (ev.summary.getD "No Title")) ∨
    (∃ d p, c = Call.summarize (ev.summary.getD "No Title")
        ((ev.attendees.getD []).map Attendee.email) d p) ∨
    ∃ u m, c = Call.slackSend u m := by
  cases hnot : dictGet toks "notion" with
  | none =>
    simp only [run_catalyst_for_user, h1, h2, h3, get_upcoming_meetings, hcal,
      hnot, Bool.false_eq_true, if_false] at hc
    rcases afterDocs_mem _ _ _ _ _ _ _ hc with h | ⟨p, h⟩ | ⟨u, m, h⟩
    · simp only [List.mem_cons, List.not_mem_nil, or_false] at h
      rcases h with rfl | rfl | rfl
      · exact Or.inl rfl
      · exact Or.inr (Or.inl rfl)
      · exact Or.inr (Or.inr (Or.inl rfl))
    · exact Or.inr (Or.inr (Or.inr (Or.inr (Or.inl ⟨_, p, h⟩))))
    · exact Or.inr (Or.inr (Or.inr (Or.inr (Or.inr ⟨u, m, h⟩))))
  | some nt =>
    cases hns : search_notion_and_get_content w.notionNet with
    | error e =>
      simp only [run_catalyst_for_user, h1, h2, h3, get_upcoming_meetings, hcal,
        hnot, hns, Bool.false_eq_true, if_false] at hc
      simp only [List.mem_cons, List.not_mem_nil, or_false] at hc
      rcases hc with rfl | rfl | rfl | rfl
      · exact Or.inl rfl
      · exact Or.inr (Or.inl rfl)
      · exact Or.inr (Or.inr (Or.inl rfl))
      · exact Or.inr (Or.inr (Or.inr (Or.inl rfl)))
    | ok nd =>
      simp only [run_catalyst_for_user, h1, h2, h3, get_upcoming_meetings, hcal,
        hnot, hns, Bool.false_eq_true, if_false] at hc
      rcases afterDocs_mem _ _ _ _ _ _ _ hc with h | ⟨p, h⟩ | ⟨u, m, h⟩
      · simp only [List.mem_cons, List.not_mem_nil, or_false] at h
        rcases h with rfl | rfl | rfl | rfl
        · exact Or.inl rfl
        · exact Or.inr (Or.inl rfl)
        · exact Or.inr (Or.inr (Or.inl rfl))
        · exact Or.inr (Or.inr (Or.inr (Or.inl rfl)))
      · exact Or.inr (Or.inr (Or.inr (Or.inr (Or.inl ⟨_, p, h⟩))))
      · exact Or.inr (Or.inr (Or.inr (Or.inr (Or.inr ⟨u, m, h⟩))))

/-- C7: meeting selection is deterministic — when the meeting fetcher
returns the empty list the orchestrator aborts with no downstream call
(no document search, summarization or notification), and when it returns
a non-empty list every summarization call carries the title and
attendees of element 0. -/
theorem C7_meeting_selection (w : World) (toks : List (String × TokenRecord))
    (h1 : get_tokens_for_user w.tokensNet = .ok (some toks))
    (h2 : toks.isEmpty = false) (g : TokenRecord)
    (h3 : dictGet toks "google" = some g) :
    (w.calendarNet = .ok [] →
      run_catalyst_for_user w = ([Call.fetchTokens, Call.fetchMeetings], .ok ()) ∧
      ∀ c ∈ (run_catalyst_for_user w).1, isDownstream c = false) ∧
    ∀ ev rest, w.calendarNet = .ok (ev :: rest) →
      ∀ t a d p, Call.summarize t a d p ∈ (run_catalyst_for_user w).1 →
        t = ev.summary.getD "No Title" ∧
        a = (ev.attendees.getD []).map Attendee.email := by
  constructor
  · intro hcal
    have hrun : run_catalyst_for_user w =
        ([Call.fetchTokens, Call.fetchMeetings], .ok ()) := by
      simp only [run_catalyst_for_user, h1, h2, h3, get_upcoming_meetings, hcal,
        Bool.false_eq_true, if_false]
    refine ⟨hrun, ?_⟩
    intro c hcmem
    rw [hrun] at hcmem
    simp only [List.mem_cons, List.not_mem_nil, or_false] at hcmem
    rcases hcmem with rfl | rfl
    · rfl
    · rfl
  · intro ev rest hcal t a d p hmem
    rcases run_mem w toks h1 h2 g h3 ev rest hcal _ hmem with
      h | h | h | h | ⟨d2, p2, h⟩ | ⟨u, m, h⟩
    · exact Call.noConfusion h
    · exact Call.noConfusion h
    · exact Call.noConfusion h
    · exact Call.noConfusion h
    · injection h with ht ha hd hp
      exact ⟨ht, ha⟩
    · exact Call.noConfusion h

/-- C7 witness: in a world whose calendar returns no events, the run stops
after the token and meeting fetches. -/
theorem C7_witness :
    run_catalyst_for_user w7e = ([Call.fetchTokens, Call.fetchMeetings], .ok ()) :=
  ((C7_meeting_selection w7e toks1 rfl rfl ⟨"g-tok", none⟩ rfl).1 rfl).1

/-- C8 counterexample: for the meeting title containing a tab, the
orchestrator's derived query is the whole title, not the title's first
whitespace-delimited token. -/
theorem C8_counterexample :
    (run_catalyst_for_user w8).1.filter isDriveCall = [Call.driveSearch "A\tB"] ∧
    firstWhitespaceToken "A\tB" = "A" ∧
    ("A\tB" : String) ≠ "A" :=
  ⟨rfl, rfl, by decide⟩

/-- C8 amended: the orchestrator's document-search query equals the first
component of the meeting title split on the single space character
(`title.split(' ')[0]`), which coincides with the first
whitespace-delimited token only for titles whose first token is
space-delimited. -/
theorem C8_amended (w : World) (toks : List (String × TokenRecord))
    (h1 : get_tokens_for_user w.tokensNet = .ok (some toks))
    (h2 : toks.isEmpty = false) (g : TokenRecord)
    (h3 : dictGet toks "google" = some g)
    (ev : Event) (rest : List Event) (hcal : w.calendarNet = .ok (ev :: rest)) :
    Call.driveSearch (derivedQuery (ev.summary.getD "No Title")) ∈
      (run_catalyst_for_user w).1 ∧
    ∀ q, Call.driveSearch q ∈ (run_catalyst_for_user w).1 →
      q = derivedQuery (ev.summary.getD "No Title") := by
  constructor
  · cases hnot : dictGet toks "notion" with
    | none =>
      simp only [run_catalyst_for_user, h1, h2, h3, get_upcoming_meetings, hcal,
        hnot, Bool.false_eq_true, if_false]
      exact afterDocs_trace_sub _ _ _ _ _ _ _ (by simp)
    | some nt =>
      cases hns : search_notion_and_get_content w.notionNet with
      | error e =>
        simp only [run_catalyst_for_user, h1, h2, h3, get_upcoming_meetings, hcal,
          hnot, hns, Bool.false_eq_true, if_false]
        simp only [List.mem_cons, List.not_mem_nil, or_false]
        tauto
      | ok nd =>
        simp only [run_catalyst_for_user, h1, h2, h3, get_upcoming_meetings, hcal,
          hnot, hns, Bool.false_eq_true, if_false]
        exact afterDocs_trace_sub _ _ _ _ _ _ _ (by simp)
  · intro q hq
    rcases run_mem w toks h1 h2 g h3 ev rest hcal _ hq with
      h | h | h | h | ⟨d2, p2, h⟩ | ⟨u, m, h⟩
    · exact Call.noConfusion h
    · exact Call.noConfusion h
    · injection h
    · exact Call.noConfusion h
    · exact Call.noConfusion h
    · exact Call.noConfusion h

/-- C8 amended, witness: in the world `w8` the orchestrator issues the
drive search with the whole tab-containing title as query. -/
theorem C8_amended_witness :
    Call.driveSearch "A\tB" ∈ (run_catalyst_for_user w8).1 :=
  (C8_amended w8 toks1 rfl rfl ⟨"g-tok", none⟩ rfl
    ⟨some "A\tB", some []⟩ [] rfl).1
